import Mathlib

/-!
Verification of the Router/Route dispatch engine of dodo-core-features
(src/route/router/Route.js and src/route/router/Router.js).

The JavaScript code is shallowly embedded: JS values that flow through the
pipeline become the inductive type `JsVal`, errors become `JsError`,
fallible steps return `Except`, the per-request promise chain becomes
sequential evaluation, and the express response object becomes the record
`Res`.  Handlers and auth handlers are modelled by the data that determines
their observable behaviour (an identifier, what they send, what they
return), so that theorems can speak about which handlers were invoked.
-/

/-- Errors thrown by the Route pipeline.  `accessError` models
`AccessError` (403), `notFoundError` models `NotFoundError` (404, optional
message, as in `new NotFoundError()` vs `new NotFoundError(msg)`), and
`err` models a plain `new Error(msg)`. -/
inductive JsError : Type
  | accessError : JsError
  | notFoundError : Option String → JsError
  | err : String → JsError
deriving DecidableEq, Repr

/-- JS values that occur as handler results, sent data and auth returns.
`buffer` models a Node `Buffer` (its contents abstracted to a string),
`obj` a plain object. -/
inductive JsVal : Type
  | undef : JsVal
  | null : JsVal
  | bool : Bool → JsVal
  | num : Int → JsVal
  | str : String → JsVal
  | buffer : String → JsVal
  | obj : List (String × JsVal) → JsVal

/-- lodash `_.isObject`: true for objects, arrays, functions and buffers,
false for `null` and primitives. -/
def isObject : JsVal → Bool
  | .obj _ => true
  | .buffer _ => true
  | _ => false

/-- lodash `_.isString`. -/
def isString : JsVal → Bool
  | .str _ => true
  | _ => false

/-- lodash `_.isBoolean`. -/
def isBoolean : JsVal → Bool
  | .bool _ => true
  | _ => false

/-- `Buffer.isBuffer`. -/
def isBuffer : JsVal → Bool
  | .buffer _ => true
  | _ => false

/-- Minimal JSON string escaping, modelling what `JSON.stringify` does to
string data (enough for the characters used in this development). -/
def jsonEscape (s : String) : String :=
  String.join (s.data.map fun c =>
    if c = '"' then "\\\""
    else if c = '\\' then "\\\\"
    else if c = '\n' then "\\n"
    else String.singleton c)

mutual

/-- Models the builtin `JSON.stringify(value)` (compact form, no spacing),
for the value forms used in this embedding.  Returns `none` where
`JSON.stringify` returns `undefined` (top-level `undefined`). -/
def jsonStringifyCompact : JsVal → Option String
  | .undef => none
  | .null => some "null"
  | .bool b => some (if b then "true" else "false")
  | .num n => some (toString n)
  | .str s => some ("\"" ++ jsonEscape s ++ "\"")
  | .buffer d => some ("\x7b\"type\":\"Buffer\",\"data\":\"" ++ jsonEscape d ++ "\"\x7d")
  | .obj fs =>
    some ("\x7b" ++ String.intercalate "," (jsonFieldsCompact fs) ++ "\x7d")

/-- Object fields of the compact form; fields whose value stringifies to
`undefined` are omitted, as `JSON.stringify` does. -/
def jsonFieldsCompact : List (String × JsVal) → List String
  | [] => []
  | (k, v) :: rest =>
    match jsonStringifyCompact v with
    | none => jsonFieldsCompact rest
    | some sv => ("\"" ++ jsonEscape k ++ "\":" ++ sv) :: jsonFieldsCompact rest

end

/-- Two spaces per depth level, the indent unit of
`JSON.stringify(value, null, 2)`. -/
def jsonIndent (depth : Nat) : String :=
  String.join (List.replicate depth "  ")

mutual

/-- Models the builtin `JSON.stringify(value, null, 2)` (pretty-printed
form with a 2-space indent), for the value forms used in this
embedding. -/
def jsonStringifyPretty (depth : Nat) : JsVal → Option String
  | .undef => none
  | .null => some "null"
  | .bool b => some (if b then "true" else "false")
  | .num n => some (toString n)
  | .str s => some ("\"" ++ jsonEscape s ++ "\"")
  | .buffer d => some ("\x7b\"type\":\"Buffer\",\"data\":\"" ++ jsonEscape d ++ "\"\x7d")
  | .obj fs =>
    match jsonFieldsPretty (depth + 1) fs with
    | [] => some "\x7b\x7d"
    | fields =>
      some ("\x7b\n" ++ String.intercalate ",\n" fields ++ "\n" ++ jsonIndent depth ++ "\x7d")

/-- Object fields of the pretty form, each on its own indented line. -/
def jsonFieldsPretty (depth : Nat) : List (String × JsVal) → List String
  | [] => []
  | (k, v) :: rest =>
    match jsonStringifyPretty depth v with
    | none => jsonFieldsPretty depth rest
    | some sv =>
      (jsonIndent depth ++ "\"" ++ jsonEscape k ++ "\": " ++ sv) :: jsonFieldsPretty depth rest

end

/-- The express request, reduced to the data the Route pipeline reads:
`req.path` (used in error messages) and `req.app.config.profile` (used by
`sendResult` to pick pretty or compact JSON). -/
structure Request : Type where
  path : String
  profile : Option String
deriving DecidableEq, Repr

/-- The express response, reduced to the state the pipeline touches.
`res.send(data)` records the data and sets `headersSent`;
`res.set(name, value)` is modelled for the one header the code sets. -/
structure Res : Type where
  headersSent : Bool := false
  sentData : Option JsVal := none
  contentType : Option String := none

/-- `res.send(data)`: stores the payload and marks the headers sent (the
mock response in Router.spec.js behaves the same way). -/
def Res.send (r : Res) (v : JsVal) : Res :=
  { r with sentData := some v, headersSent := true }

/-- `res.set(name, value)`: only the Content-Type header is ever set by
the Route code, so only it is tracked. -/
def Res.set (r : Res) (name value : String) : Res :=
  if name = "Content-Type" then { r with contentType := some value } else r

/-- The observable behaviour of one auth handler registered with
`auth(fn)` (or the defaultAuthHandler): what calling it produces.
`val` is a returned (or promise-resolved) plain value, `errVal` a
returned value that is an `Error` instance, `throws` a synchronous throw
or promise rejection. -/
inductive AuthRet : Type
  | val : JsVal → AuthRet
  | errVal : JsError → AuthRet
  | throws : JsError → AuthRet

/-- One auth handler: an identifier (to state which handlers ran) plus
its behaviour. -/
structure AuthHandler : Type where
  id : Nat
  ret : AuthRet

/-- The return behaviour of a route handler: a value (directly or via a
resolved promise) or a throw or rejection. -/
inductive HandlerRet : Type
  | val : JsVal → HandlerRet
  | throws : JsError → HandlerRet

/-- One route handler: an identifier, the data it itself sends through
`res.send` before completing (if any), and its return behaviour. -/
structure RouteHandler : Type where
  id : Nat
  sends : Option JsVal := none
  ret : HandlerRet

/-- An express middleware, reduced to its completion signal: `none`
models calling `next()`, `some e` models `next(e)`. -/
abbrev MiddlewareBehavior := Option JsError

/-- The `apiVersioningConfig` structure (Route.js reads it with `_.get`,
so every field except `enabled` may be absent; absent boolean flags
default to `true` at the read sites). -/
structure ApiVersioningConfig : Type where
  enabled : Bool
  availableApiVersions : Option (List Nat) := none
  findApiVersionHandler : Request → Option Nat
  generateRoutePathHandler : Option (String → String) := none
  fallbackToDefaultHandler : Option Bool := none
  fallbackToPreviousApiVersion : Option Bool := none

/-- The Route object (Route.js constructor).  `handlerFuncs` is the JS
object keyed by version strings plus the sentinel key "default";
`isPublic` models `this._public` and `omitResultHandlers` models
`this._omitResultHandlers` (both unset, hence false, at construction). -/
structure Route : Type where
  method : String
  path : String
  defaultAuthHandler : Option AuthHandler := none
  unauthenticatedStatusCode : Nat := 401
  authHandlers : List AuthHandler := []
  expressMiddleware : List MiddlewareBehavior := []
  handlerFuncs : List (String × RouteHandler) := []
  apiVersioningConfig : Option ApiVersioningConfig := none
  isPublic : Bool := false
  omitResultHandlers : Bool := false

/-- Property lookup `handlerFuncs[key]` on the JS object modelled as an
association list (registration keeps keys unique). -/
def lookupKey (hf : List (String × RouteHandler)) (k : String) : Option RouteHandler :=
  (hf.find? (fun p => p.1 == k)).map (·.2)

/-- JS `<` on two strings: lexicographic comparison of the code units. -/
def jsCharListLt : List Char → List Char → Bool
  | [], [] => false
  | [], _ :: _ => true
  | _ :: _, [] => false
  | a :: as, b :: bs =>
    if a.toNat < b.toNat then true
    else if b.toNat < a.toNat then false
    else jsCharListLt as bs

/-- JS string comparison `a < b`. -/
def jsStrLt (a b : String) : Bool :=
  jsCharListLt a.data b.data

/-- lodash `_.max` on an array of strings: baseExtremum with the `>`
comparator, which on strings is the lexicographic JS comparison.  Returns
`undefined` (`none`) on an empty array. -/
def lodashMax (l : List String) : Option String :=
  l.foldl
    (fun acc v =>
      match acc with
      | none => some v
      | some m => if jsStrLt m v then some v else acc)
    none

/-- The numeric value of a decimal digit character, or `none`. -/
def digitVal? (c : Char) : Option Nat :=
  if 48 ≤ c.toNat ∧ c.toNat ≤ 57 then some (c.toNat - 48) else none

/-- Accumulating decimal parse of a character list; any non-digit makes
the whole parse fail (NaN). -/
def digitsToNatAux : List Char → Nat → Option Nat
  | [], acc => some acc
  | c :: cs, acc =>
    match digitVal? c with
    | some d => digitsToNatAux cs (acc * 10 + d)
    | none => none

/-- JS `Number(key)` for the non-negative decimal keys that occur in
`handlerFuncs` (an empty or non-numeric string yields `none`,
standing for NaN). -/
def jsStringToNat? (s : String) : Option Nat :=
  match s.data with
  | [] => none
  | cs => digitsToNatAux cs 0

/-- The filter predicate `key <= apiVersion` of `findHandler_`: JS
coerces the string key to a number for the comparison (a non-numeric key
compares as NaN, which is never `<=`). -/
def jsKeyLeNat (key : String) (v : Nat) : Bool :=
  match jsStringToNat? key with
  | some n => n ≤ v
  | none => false

/-- `Route.prototype.findHandler_` (Route.js lines 207-247): exact
version lookup, then the fallback-to-previous search over the non-default
keys (`_.chain(handlerFuncs).omit('default').keys().filter(...).max()`),
then the fallback to the "default" entry. -/
def findHandler (hf : List (String × RouteHandler)) (apiVersion : Option Nat)
    (fallbackToDefault fallbackToPrevious : Bool) : Option RouteHandler :=
  match apiVersion with
  | none =>
    if fallbackToDefault then lookupKey hf "default" else none
  | some v =>
    match lookupKey hf (toString v) with
    | some h => some h
    | none =>
      if fallbackToPrevious then
        let keys := ((hf.filter (fun p => p.1 != "default")).map (·.1)).filter
          (fun k => jsKeyLeNat k v)
        let previousApiVersion := lodashMax keys
        let handler :=
          match previousApiVersion with
          | some pk => lookupKey hf pk
          | none => none
        match handler with
        | some h => some h
        | none => if fallbackToDefault then lookupKey hf "default" else none
      else if fallbackToDefault then lookupKey hf "default" else none

/-- `Route.prototype.validateApiVersion_` (Route.js lines 280-286):
throws NotFound when `availableApiVersions` is present and does not
include the version. -/
def validateApiVersion (cfg : ApiVersioningConfig) (v : Nat) : Except JsError Unit :=
  match cfg.availableApiVersions with
  | some avail =>
    if avail.contains v then .ok ()
    else .error (.notFoundError (some
      ("specified apiVersion not available. Available api versions are: "
        ++ String.intercalate ", " (avail.map toString))))
  | none => .ok ()

/-- `Route.prototype.findApiVersionFromRequest_` (Route.js lines
256-272): asks the configured `findApiVersionHandler`; an undefined
version with `fallbackToDefaultHandler === false` is NotFound, a defined
version is validated. -/
def findApiVersionFromRequest (cfg : ApiVersioningConfig) (req : Request) :
    Except JsError (Option Nat) :=
  let fallbackToDefault := cfg.fallbackToDefaultHandler.getD true
  match cfg.findApiVersionHandler req with
  | none =>
    if fallbackToDefault = false then
      .error (.notFoundError (some "Api version must be defined"))
    else
      .ok none
  | some v => (validateApiVersion cfg v).map (fun _ => some v)

/-- `Route.prototype.isApiVersioningEnabled_` (Route.js lines 293-296). -/
def Route.isApiVersioningEnabled (r : Route) : Bool :=
  match r.apiVersioningConfig with
  | some cfg => cfg.enabled
  | none => false

/-- `_.get(self, 'apiVersioningConfig.fallbackToDefaultHandler', true)`
as read in `handle_` (Route.js line 402). -/
def Route.fbDefault (r : Route) : Bool :=
  match r.apiVersioningConfig with
  | some cfg => cfg.fallbackToDefaultHandler.getD true
  | none => true

/-- `_.get(self, 'apiVersioningConfig.fallbackToPreviousApiVersion',
true)` as read in `handle_` (Route.js line 403). -/
def Route.fbPrevious (r : Route) : Bool :=
  match r.apiVersioningConfig with
  | some cfg => cfg.fallbackToPreviousApiVersion.getD true
  | none => true

/-- The validation applied to each auth handler return value in
`handle_` (Route.js lines 380-390): a boolean continues or denies, an
`Error` instance is rethrown as-is, anything else is an invalid-return
configuration error.  A throw or rejection of the handler itself
propagates before the validation runs. -/
def evalAuthRet (path : String) (r : AuthRet) : Except JsError Unit :=
  match r with
  | .throws e => .error e
  | .errVal e => .error e
  | .val v =>
    if isBoolean v then
      match v with
      | .bool b => if b then .ok () else .error .accessError
      | _ => .ok ()
    else
      .error (.err ("Invalid return value from auth handler. Requested path: " ++ path))

/-- The auth stage of the per-request promise chain (`_.forEach` at
Route.js line 377): handlers run in order and the first failure stops the
chain.  Returns the identifiers of the handlers that were actually called
together with the outcome. -/
def runAuthChain (path : String) : List AuthHandler → List Nat × Except JsError Unit
  | [] => ([], .ok ())
  | h :: rest =>
    match evalAuthRet path h.ret with
    | .ok _ =>
      let acc := runAuthChain path rest
      (h.id :: acc.1, acc.2)
    | .error e => ([h.id], .error e)

/-- The middleware stage (`_.forEach` at Route.js line 363 together with
`executeMiddleware`): middlewares run in order, `next(err)` rejects the
chain. -/
def runMiddlewares : List MiddlewareBehavior → Except JsError Unit
  | [] => .ok ()
  | none :: rest => runMiddlewares rest
  | some e :: _ => .error e

/-- The effective list of auth checks built in `handle_` (Route.js lines
360, 369-375): `authHandlers.slice()` copies the registered list, and for
a non-public route the defaultAuthHandler is unshifted in front of it, or
a configuration error is thrown synchronously when it is absent.  Note
that for a public route no defaultAuthHandler is prepended but the copied
`authHandlers` list still runs. -/
def effectiveAuthHandlers (r : Route) (req : Request) : Except JsError (List AuthHandler) :=
  if r.isPublic then
    .ok r.authHandlers
  else
    match r.defaultAuthHandler with
    | some d => .ok (d :: r.authHandlers)
    | none =>
      .error (.err ("No defaultAuthHandler set for non-public route. Requested path: "
        ++ req.path))

/-- The version resolution prelude of the final `.then` of `handle_`
(Route.js lines 394-399). -/
def Route.resolveApiVersion (r : Route) (req : Request) : Except JsError (Option Nat) :=
  if r.isApiVersioningEnabled then
    match r.apiVersioningConfig with
    | some cfg => findApiVersionFromRequest cfg req
    | none => .ok none
  else
    .ok none

/-- What `handle_` resolves to: the sentinel token `NO_RESULT` (custom
response mode) or the value the handler returned. -/
inductive HandleResult : Type
  | noResult : HandleResult
  | value : JsVal → HandleResult

/-- The observable outcome of `handle_`: the response state, which auth
handlers were called, which route handler (by id) was invoked, and the
resolution or rejection of the returned promise. -/
structure HandleOut : Type where
  res : Res
  authInvoked : List Nat
  handlerInvoked : Option Nat
  result : Except JsError HandleResult

/-- `Route.prototype.handle_` (Route.js lines 357-418).  The stages of
the per-request promise chain run sequentially; the missing
defaultAuthHandler error is thrown synchronously while the chain is being
built, so it is the error delivered to the caller. -/
def Route.handle (r : Route) (req : Request) (res : Res) : HandleOut :=
  match effectiveAuthHandlers r req with
  | .error e => ⟨res, [], none, .error e⟩
  | .ok effAuth =>
    match runMiddlewares r.expressMiddleware with
    | .error e => ⟨res, [], none, .error e⟩
    | .ok _ =>
      let ac := runAuthChain req.path effAuth
      match ac.2 with
      | .error e => ⟨res, ac.1, none, .error e⟩
      | .ok _ =>
        match r.resolveApiVersion req with
        | .error e => ⟨res, ac.1, none, .error e⟩
        | .ok apiVersion =>
          match findHandler r.handlerFuncs apiVersion r.fbDefault r.fbPrevious with
          | none => ⟨res, ac.1, none, .error (.notFoundError (some "Handler not found"))⟩
          | some h =>
            let res1 :=
              match h.sends with
              | some d => res.send d
              | none => res
            match h.ret with
            | .throws e => ⟨res1, ac.1, some h.id, .error e⟩
            | .val v =>
              if r.omitResultHandlers then
                ⟨res1, ac.1, some h.id, .ok .noResult⟩
              else
                ⟨res1, ac.1, some h.id, .ok (.value v)⟩

/-- The free function `sendResult` (Route.js lines 441-460): buffers pass
through unmodified, other objects are sent as JSON (pretty in the
development and testing profiles, compact otherwise) with the
Content-Type header set, anything else (here: strings) is sent
verbatim. -/
def sendResult (result : JsVal) (req : Request) (res : Res) : Res :=
  if isBuffer result then
    res.send result
  else if isObject result then
    let res := res.set "Content-Type" "application/json"
    if req.profile = some "development" ∨ req.profile = some "testing" then
      res.send (.str ((jsonStringifyPretty 0 result).getD "undefined"))
    else
      res.send (.str ((jsonStringifyCompact result).getD "undefined"))
  else
    res.send result

/-- The result continuation of `handlerMiddleware_` (Route.js lines
327-351): the NO_RESULT token must find the response already sent, a
non-object non-string result is NotFound, otherwise `sendResult` runs and
`headersSent` is checked afterwards. -/
def resultStep (req : Request) (res : Res) (result : HandleResult) :
    Res × Except JsError Unit :=
  match result with
  | .noResult =>
    if !res.headersSent then
      (res, .error (.err
        ("When using .customResponse() handler, the promise returned must not resolve before the response has been sent. Requested path: "
          ++ req.path)))
    else
      (res, .ok ())
  | .value v =>
    if !(isObject v) && !(isString v) then
      (res, .error (.notFoundError none))
    else
      let res1 := sendResult v req res
      if !res1.headersSent then
        (res1, .error (.err
          ("Unexpected error, call to res.send did not set the res.headersSent attribute. Requested path: "
            ++ req.path)))
      else
        (res1, .ok ())

/-- The full dispatch outcome seen by express: response state, invocation
trace and the value passed to `next` on failure. -/
structure DispatchOut : Type where
  res : Res
  authInvoked : List Nat
  handlerInvoked : Option Nat
  outcome : Except JsError Unit

/-- `Route.prototype.handlerMiddleware_` (Route.js lines 318-352):
`handle_` followed by the result continuation, any error going to
`next`. -/
def Route.dispatch (r : Route) (req : Request) (res : Res) : DispatchOut :=
  let h := r.handle req res
  match h.result with
  | .error e => ⟨h.res, h.authInvoked, h.handlerInvoked, .error e⟩
  | .ok result =>
    let step := resultStep req h.res result
    ⟨step.1, h.authInvoked, h.handlerInvoked, step.2⟩

/-- State-passing form of dispatch: `handle_` only reads `this` — the one
would-be mutation, `unshift` of the defaultAuthHandler, operates on the
`authHandlers.slice()` copy — so the Route threaded through a dispatch
comes back unchanged. -/
def Route.dispatchSt (r : Route) (req : Request) (res : Res) : Route × DispatchOut :=
  (r, r.dispatch req res)

/-- The Route state after a sequence of dispatches, each threading the
Route state through `dispatchSt`. -/
def dispatchSeqState (r : Route) : List (Request × Res) → Route
  | [] => r
  | (req, res) :: rest => dispatchSeqState (r.dispatchSt req res).1 rest

/-- One `expressRouter[method](path, callback)` call made by `execute_`:
the bound (method, path) pair.  The callback is the same
`handlerMiddleware_` closure for every binding of a Route, so it is not
part of the key. -/
abbrev Binding := String × String

/-- The registration path computed in `execute_` (Route.js lines
304-307): rewritten through `generateRoutePathHandler` when API
versioning is enabled and the rewrite handler is a function. -/
def Route.registeredPath (r : Route) : String :=
  if r.isApiVersioningEnabled then
    match r.apiVersioningConfig with
    | some cfg =>
      match cfg.generateRoutePathHandler with
      | some gen => gen r.path
      | none => r.path
    | none => r.path
  else
    r.path

/-- `Route.prototype.execute_` (Route.js lines 301-313): appends one
binding for this route into the underlying routing table. -/
def Route.execute (r : Route) (table : List Binding) : List Binding :=
  table ++ [(r.method, r.registeredPath)]

/-- `Route.prototype.middleware` (Route.js lines 61-68). -/
def Route.middleware (r : Route) (mw : MiddlewareBehavior) : Except JsError Route :=
  if r.handlerFuncs.length > 0 then
    .error (.err "You must call middleware(func) before handler(func)")
  else
    .ok { r with expressMiddleware := r.expressMiddleware ++ [mw] }

/-- `Route.prototype.auth` (Route.js lines 77-87); called with no
argument (`none`) it registers nothing. -/
def Route.auth (r : Route) (authHandler : Option AuthHandler) : Except JsError Route :=
  if r.handlerFuncs.length > 0 then
    .error (.err "You must call auth(func) before handler(func)")
  else
    match authHandler with
    | some ah => .ok { r with authHandlers := r.authHandlers ++ [ah] }
    | none => .ok r

/-- `Route.prototype.public` (Route.js lines 94-99): clears the
registered auth handlers and the defaultAuthHandler and marks the route
public. -/
def Route.public (r : Route) : Route :=
  { r with authHandlers := [], defaultAuthHandler := none, isPublic := true }

/-- `Route.prototype.customResponse` (Route.js lines 108-111). -/
def Route.customResponse (r : Route) : Route :=
  { r with omitResultHandlers := true }

/-- The first block of `handler_` (Route.js lines 129-138): when called
without an api version, or with `isDefault` true, store the handler
under the "default" key, rejecting a duplicate. -/
def Route.regDefault (r : Route) (h : RouteHandler) (apiVersion : Option Nat)
    (isDefault : Bool) : Except JsError Route :=
  if apiVersion.isNone || isDefault then
    match lookupKey r.handlerFuncs "default" with
    | some _ =>
      .error (.err "default handler func can be set only once per Route instance")
    | none =>
      .ok { r with handlerFuncs := r.handlerFuncs ++ [("default", h)] }
  else
    .ok r

/-- The second block of `handler_` (Route.js lines 140-151): when an api
version was given, validate it and store the handler under its version
key, rejecting a duplicate. -/
def Route.regVersion (r : Route) (h : RouteHandler) (apiVersion : Option Nat) :
    Except JsError Route :=
  match apiVersion with
  | some v =>
    match
      (match r.apiVersioningConfig with
       | some cfg => validateApiVersion cfg v
       | none => Except.ok ()) with
    | .error e => .error e
    | .ok _ =>
      match lookupKey r.handlerFuncs (toString v) with
      | some _ =>
        .error (.err "apiVersion handler already exists, can be set only once.")
      | none =>
        .ok { r with handlerFuncs := r.handlerFuncs ++ [(toString v, h)] }
  | none => .ok r

/-- `Route.prototype.handler_` (Route.js lines 122-155): rejects a
version when versioning is disabled, runs the default-key and
version-key registration blocks, then calls `execute_`, which appends
one binding to the routing table. -/
def Route.handlerReg (r : Route) (table : List Binding) (h : RouteHandler)
    (apiVersion : Option Nat) (isDefault : Bool) :
    Except JsError (Route × List Binding) :=
  if r.isApiVersioningEnabled = false ∧ apiVersion.isSome then
    .error (.err "cant define versioned handler because api versioning is not enabled")
  else
    match r.regDefault h apiVersion isDefault with
    | .error e => .error e
    | .ok r1 =>
      match r1.regVersion h apiVersion with
      | .error e => .error e
      | .ok r2 => .ok (r2, r2.execute table)

/-- `Route.prototype.handler` (Route.js lines 165-176): the one-argument
form registers the default handler, the two-argument form a versioned
one; either way `isDefault` is false. -/
def Route.handlerCall (r : Route) (table : List Binding) (apiVersion : Option Nat)
    (h : RouteHandler) : Except JsError (Route × List Binding) :=
  r.handlerReg table h apiVersion false

/-- `Route.prototype.defaultHandler` (Route.js lines 186-197): like
`handler` with `isDefault` true, so the handler is additionally stored
under "default". -/
def Route.defaultHandlerCall (r : Route) (table : List Binding) (apiVersion : Option Nat)
    (h : RouteHandler) : Except JsError (Route × List Binding) :=
  r.handlerReg table h apiVersion true

/-- The Router (Router.js): the shared defaults every created Route is
seeded with. -/
structure Router : Type where
  defaultAuthHandler : Option AuthHandler := none
  unauthenticatedStatusCode : Nat := 401
  apiVersioningConfig : Option ApiVersioningConfig := none

/-- `Router.prototype._route`, reached through the verb methods
get/put/post/patch/delete (Router.js lines 116-176): constructs a new
Route seeded with the router defaults.  It performs no call on the
underlying express router, so the routing table is untouched at
route-definition time. -/
def Router.route (router : Router) (path method : String) : Route :=
  { method := method
    path := path
    defaultAuthHandler := router.defaultAuthHandler
    unauthenticatedStatusCode := router.unauthenticatedStatusCode
    apiVersioningConfig := router.apiVersioningConfig }

/-! Concrete scenario data used by the claim theorems below. -/

/-- A request for the path used throughout Router.spec.js, with no
configured profile. -/
def req0 : Request := ⟨"/some/path", none⟩

/-- The version-1 handler of the C1 scenario (also registered as the
default handler, as `defaultHandler(1, fn)` does). -/
def c1h1 : RouteHandler := ⟨1, none, .val (.obj [("v", .num 1)])⟩

/-- The version-4 handler of the C1 scenario. -/
def c1h4 : RouteHandler := ⟨4, none, .val (.obj [("v", .num 4)])⟩

/-- The C1 versioning config: available versions 1, 2 and 4, requests
resolve to version 3, with the given fallback-to-previous setting. -/
def c1cfg (fbPrev : Bool) : ApiVersioningConfig :=
  { enabled := true
    availableApiVersions := some [1, 2, 4]
    findApiVersionHandler := fun _ => some 3
    fallbackToPreviousApiVersion := some fbPrev }

/-- The C1 route: public, with the handlerFuncs produced by
`defaultHandler(1, c1h1)` followed by `handler(4, c1h4)`. -/
def c1route (fbPrev : Bool) : Route :=
  { method := "get"
    path := "/some/path"
    isPublic := true
    handlerFuncs := [("default", c1h1), ("1", c1h1), ("4", c1h4)]
    apiVersioningConfig := some (c1cfg fbPrev) }

/-- The defaultAuthHandler of the C2 scenario (id 0, passes). -/
def c2default : AuthHandler := ⟨0, .val (.bool true)⟩

/-- The explicitly registered auth handler of the C2 scenario (id 1,
passes). -/
def c2explicit : AuthHandler := ⟨1, .val (.bool true)⟩

/-- The C2 route: non-public, a defaultAuthHandler present and one
explicit auth handler registered via `auth(fn)`. -/
def c2route : Route :=
  { method := "get"
    path := "/some/path"
    defaultAuthHandler := some c2default
    authHandlers := [c2explicit]
    handlerFuncs := [("default", ⟨9, none, .val (.str "x")⟩)] }

/-- The C2 route without a defaultAuthHandler but with an explicit auth
handler still registered. -/
def c2routeNoDefault : Route :=
  { c2route with defaultAuthHandler := none }

/-- The C3 route: public, not in custom-response mode, whose handler
sends the response itself and returns undefined. -/
def c3route : Route :=
  { method := "get"
    path := "/some/path"
    isPublic := true
    handlerFuncs := [("default", ⟨7, some (.str "sent by handler"), .val .undef⟩)] }

/-- The C4 versioning config with a path-rewrite handler, as in the API
versioning tests of Router.spec.js. -/
def c4cfg : ApiVersioningConfig :=
  { enabled := true
    availableApiVersions := some [1, 2]
    findApiVersionHandler := fun _ => some 1
    generateRoutePathHandler := some (fun p => "/:apiVersion" ++ p) }

/-- The Route produced by the Router verb method
(`router.get('/some/path')`) under the C4 config, made public. -/
def c4route0 : Route :=
  Route.public (Router.route { apiVersioningConfig := some c4cfg } "/some/path" "get")

/-- The version-1 handler of the C4 scenario. -/
def c4h1 : RouteHandler := ⟨1, none, .val .null⟩

/-- The version-2 handler of the C4 scenario. -/
def c4h2 : RouteHandler := ⟨2, none, .val .null⟩

/-- The C4 route after `handler(1, c4h1)`. -/
def c4r1 : Route :=
  { c4route0 with handlerFuncs := [("1", c4h1)] }

/-- The routing table and route after `handler(1, c4h1)` on the freshly
created C4 route and an empty table. -/
def c4step1 : Except JsError (Route × List Binding) :=
  c4route0.handlerCall [] (some 1) c4h1

/-- The routing table and route state after additionally calling
`handler(2, c4h2)`. -/
def c4step2 : Except JsError (Route × List Binding) :=
  match c4step1 with
  | .ok (r1, t1) => r1.handlerCall t1 (some 2) c4h2
  | .error e => .error e

/-- The C5 handler map: handlers registered at versions 2 and 10 (the
handler ids equal their versions). -/
def c5funcs : List (String × RouteHandler) :=
  [("2", ⟨2, none, .val .null⟩), ("10", ⟨10, none, .val .null⟩)]

/-- The C6 base route before `public()`: a denying defaultAuthHandler
(id 0) and a denying explicit auth handler (id 3). -/
def c6base : Route :=
  { method := "get"
    path := "/some/path"
    defaultAuthHandler := some ⟨0, .val (.bool false)⟩
    authHandlers := [⟨3, .val (.bool false)⟩] }

/-- The auth handler registered after `public()` in the C6 scenario
(id 5, denies). -/
def c6after : AuthHandler := ⟨5, .val (.bool false)⟩

/-- The C6 route after `public()` followed by `auth(c6after)`. -/
def c6final : Route :=
  { (Route.public c6base) with authHandlers := [c6after] }

/-- A request whose application profile is "development" (C8). -/
def reqDev : Request := ⟨"/some/path", some "development"⟩

/-- The C9 versioning config: enabled, no version resolvable from the
request, with the given fallback-to-default setting. -/
def c9cfg (fbDefault : Option Bool) : ApiVersioningConfig :=
  { enabled := true
    findApiVersionHandler := fun _ => none
    fallbackToDefaultHandler := fbDefault }

/-- The default handler of the C9 scenario. -/
def c9h : RouteHandler := ⟨9, none, .val (.str "default result")⟩

/-- The C9 route: public, versioning enabled, a "default" handler
registered. -/
def c9route (fbDefault : Option Bool) : Route :=
  { method := "get"
    path := "/some/path"
    isPublic := true
    handlerFuncs := [("default", c9h)]
    apiVersioningConfig := some (c9cfg fbDefault) }

/-- A denying auth handler used by the C7 witness. -/
def c7deny : AuthHandler := ⟨21, .val (.bool false)⟩

/-- A public route whose only auth check denies, used to witness that an
auth failure reaches `next` and the handler is never invoked (C7). -/
def c7route : Route :=
  { method := "get"
    path := "/some/path"
    isPublic := true
    authHandlers := [c7deny]
    handlerFuncs := [("default", ⟨22, none, .val (.str "x")⟩)] }

/-! Helper lemmas. -/

/-- Splitting the auth chain after a fully passing prefix. -/
theorem runAuthChain_append_ok (path : String) (pre l : List AuthHandler)
    (hpre : (runAuthChain path pre).2 = .ok ()) :
    runAuthChain path (pre ++ l) =
      ((runAuthChain path pre).1 ++ (runAuthChain path l).1, (runAuthChain path l).2) := by
  induction pre with
  | nil => simp [runAuthChain]
  | cons h t ih =>
    cases hev : evalAuthRet path h.ret with
    | ok u =>
      have hpre' : (runAuthChain path t).2 = .ok () := by
        simpa [runAuthChain, hev] using hpre
      simp [runAuthChain, hev, ih hpre']
    | error e =>
      exfalso
      simp [runAuthChain, hev] at hpre

/-- A fully passing auth chain calls every handler in order. -/
theorem runAuthChain_ids_ok (path : String) (l : List AuthHandler)
    (hok : (runAuthChain path l).2 = .ok ()) :
    (runAuthChain path l).1 = l.map (·.id) := by
  induction l with
  | nil => simp [runAuthChain]
  | cons h t ih =>
    cases hev : evalAuthRet path h.ret with
    | ok u =>
      have hok' : (runAuthChain path t).2 = .ok () := by
        simpa [runAuthChain, hev] using hok
      simp [runAuthChain, hev, ih hok']
    | error e =>
      exfalso
      simp [runAuthChain, hev] at hok

/-- Whatever happens after the auth stage, the list of invoked auth
handlers reported by a dispatch is the one computed by `runAuthChain` on
the effective list. -/
theorem dispatch_authInvoked (r : Route) (req : Request) (res : Res)
    (es : List AuthHandler)
    (heff : effectiveAuthHandlers r req = .ok es)
    (hmw : runMiddlewares r.expressMiddleware = .ok ()) :
    (r.dispatch req res).authInvoked = (runAuthChain req.path es).1 := by
  unfold Route.dispatch Route.handle
  rw [heff, hmw]
  rcases hac : (runAuthChain req.path es).2 with e | u
  · simp [hac]
  · rcases hv : r.resolveApiVersion req with e | apiVersion
    · simp [hac, hv]
    · rcases hf : findHandler r.handlerFuncs apiVersion r.fbDefault r.fbPrevious with _ | h
      · simp [hac, hv, hf]
      · rcases hr : h.ret with v | e
        · by_cases ho : r.omitResultHandlers <;> simp [hac, hv, hf, hr, ho]
        · simp [hac, hv, hf, hr]

/-- An auth-stage failure is delivered to `next` unchanged, the route
handler is not invoked, and the response is untouched. -/
theorem dispatch_auth_error (r : Route) (req : Request) (res : Res)
    (es : List AuthHandler) (e : JsError)
    (heff : effectiveAuthHandlers r req = .ok es)
    (hmw : runMiddlewares r.expressMiddleware = .ok ())
    (hfail : (runAuthChain req.path es).2 = .error e) :
    (r.dispatch req res).outcome = .error e
    ∧ (r.dispatch req res).handlerInvoked = none
    ∧ (r.dispatch req res).res = res := by
  unfold Route.dispatch Route.handle
  rw [heff, hmw]
  simp [hfail]

/-! Claim theorems. -/

/-- C1 counterexample: in the claimed scenario (available versions
1, 2, 4; handlers at 1, also default, and 4; request resolving to
version 3) the dispatch with `fallbackToPreviousApiVersion = true` does
NOT reach the version-1 handler: `findApiVersionFromRequest_` first
validates the requested version 3 against the available versions and
fails, so no handler is invoked at all. -/
theorem C1_counterexample :
    ((c1route true).dispatch req0 {}).handlerInvoked = none
    ∧ ((c1route true).dispatch req0 {}).outcome =
        .error (.notFoundError
          (some "specified apiVersion not available. Available api versions are: 1, 2, 4")) := by
  exact ⟨rfl, rfl⟩

/-- C1 amended: in that scenario, for either value of
`fallbackToPreviousApiVersion`, the dispatch fails with the NotFound
validation error "specified apiVersion not available. Available api
versions are: 1, 2, 4" and no handler is invoked; the fallback flags are
never consulted because the requested version 3 is not among the
available versions. -/
theorem C1_amended :
    ∀ b : Bool,
      ((c1route b).dispatch req0 {}).outcome =
        .error (.notFoundError
          (some "specified apiVersion not available. Available api versions are: 1, 2, 4"))
      ∧ ((c1route b).dispatch req0 {}).handlerInvoked = none := by
  intro b
  cases b <;> exact ⟨rfl, rfl⟩

/-- C2 counterexample: on a non-public route with one explicit auth
handler (id 1) and a defaultAuthHandler (id 0), the dispatch runs the
defaultAuthHandler in addition to, and before, the explicit handler —
the executed checks are [0, 1], not just [1].  Moreover, removing the
defaultAuthHandler while keeping the explicit handler yields the
missing-default configuration error. -/
theorem C2_counterexample :
    (c2route.dispatch req0 {}).authInvoked = [0, 1]
    ∧ ([0, 1] : List Nat) ≠ [1]
    ∧ (c2routeNoDefault.dispatch req0 {}).outcome =
        .error (.err "No defaultAuthHandler set for non-public route. Requested path: /some/path") := by
  exact ⟨rfl, by decide, rfl⟩

/-- C2 amended: on every dispatch of a non-public route the
defaultAuthHandler is required and, when present, is prepended to the
explicitly registered handlers, so the executed checks are the
defaultAuthHandler followed by the explicit handlers in registration
order; when it is absent the missing-default configuration error is
raised even if explicit auth handlers were registered, before any auth
check runs and without invoking the route handler. -/
theorem C2_amended (r : Route) (req : Request) (res : Res) (d : AuthHandler)
    (hp : r.isPublic = false) :
    (r.defaultAuthHandler = some d →
      runMiddlewares r.expressMiddleware = .ok () →
      (r.dispatch req res).authInvoked = (runAuthChain req.path (d :: r.authHandlers)).1)
    ∧ (r.defaultAuthHandler = none →
      (r.dispatch req res).outcome =
        .error (.err ("No defaultAuthHandler set for non-public route. Requested path: " ++ req.path))
      ∧ (r.dispatch req res).authInvoked = []
      ∧ (r.dispatch req res).handlerInvoked = none) := by
  constructor
  · intro hd hmw
    have heff : effectiveAuthHandlers r req = .ok (d :: r.authHandlers) := by
      unfold effectiveAuthHandlers
      rw [hp, hd]
      rfl
    exact dispatch_authInvoked r req res (d :: r.authHandlers) heff hmw
  · intro hd
    have heff : effectiveAuthHandlers r req =
        .error (.err ("No defaultAuthHandler set for non-public route. Requested path: " ++ req.path)) := by
      unfold effectiveAuthHandlers
      rw [hp, hd]
      rfl
    unfold Route.dispatch Route.handle
    rw [heff]
    exact ⟨rfl, rfl, rfl⟩

/-- C2 amended, witnessed at the concrete C2 route. -/
theorem C2_amended_witness :
    c2route.isPublic = false
    ∧ (c2route.dispatch req0 {}).authInvoked =
        (runAuthChain req0.path (c2default :: c2route.authHandlers)).1 := by
  exact ⟨rfl, (C2_amended c2route req0 {} c2default rfl).1 rfl rfl⟩

/-- C3 counterexample: on a route not in custom-response mode whose
handler sends the response itself and returns undefined, the dispatch
does not complete successfully: even though the response was sent
(headersSent is true) the dispatch fails, and with a NotFound error
rather than a no-response-sent error. -/
theorem C3_counterexample :
    (c3route.dispatch req0 {}).res.headersSent = true
    ∧ (c3route.dispatch req0 {}).outcome = .error (.notFoundError none) := by
  exact ⟨rfl, rfl⟩

/-- C3 amended: whenever the handler of a route not in custom-response
mode returns undefined, the dispatch fails with a NotFound error,
whether or not the response was already sent; the no-response-sent error
exists only in custom-response mode. -/
theorem C3_amended (r : Route) (req : Request) (res : Res)
    (hres : (r.handle req res).result = .ok (.value .undef)) :
    (r.dispatch req res).outcome = .error (.notFoundError none) := by
  simp only [Route.dispatch, hres]
  rfl

/-- C3 amended, witnessed at the concrete C3 route. -/
theorem C3_amended_witness :
    (c3route.handle req0 {}).result = .ok (.value .undef)
    ∧ (c3route.dispatch req0 {}).outcome = .error (.notFoundError none) := by
  exact ⟨rfl, C3_amended c3route req0 {} rfl⟩

/-- The default-key registration block only touches `handlerFuncs`. -/
theorem regDefault_fields (r : Route) (h : RouteHandler) (apiVersion : Option Nat)
    (isDefault : Bool) (r1 : Route)
    (hd : r.regDefault h apiVersion isDefault = .ok r1) :
    r1.method = r.method ∧ r1.path = r.path
      ∧ r1.apiVersioningConfig = r.apiVersioningConfig := by
  unfold Route.regDefault at hd
  split at hd
  · split at hd
    · exact Except.noConfusion hd
    · injection hd with he
      subst he
      exact ⟨rfl, rfl, rfl⟩
  · injection hd with he
    subst he
    exact ⟨rfl, rfl, rfl⟩

/-- The version-key registration block only touches `handlerFuncs`. -/
theorem regVersion_fields (r : Route) (h : RouteHandler) (apiVersion : Option Nat)
    (r1 : Route) (hv : r.regVersion h apiVersion = .ok r1) :
    r1.method = r.method ∧ r1.path = r.path
      ∧ r1.apiVersioningConfig = r.apiVersioningConfig := by
  unfold Route.regVersion at hv
  split at hv
  · split at hv
    · exact Except.noConfusion hv
    · split at hv
      · exact Except.noConfusion hv
      · injection hv with he
        subst he
        exact ⟨rfl, rfl, rfl⟩
  · injection hv with he
    subst he
    exact ⟨rfl, rfl, rfl⟩

/-- The registration path depends only on the path and the versioning
config. -/
theorem registeredPath_congr (a b : Route) (hp : a.path = b.path)
    (hc : a.apiVersioningConfig = b.apiVersioningConfig) :
    a.registeredPath = b.registeredPath := by
  unfold Route.registeredPath Route.isApiVersioningEnabled
  rw [hp, hc]

/-- C4 counterexample: the Router verb method alone binds nothing (it
only constructs the Route), and registering version handlers at versions
1 and 2 on the same route results in two bindings in the underlying
routing table — one per `handler()` call, both keyed by the same
(method, rewritten path) pair — not exactly one binding per route. -/
theorem C4_counterexample :
    c4step2.map (fun p => p.2) =
      .ok [("get", "/:apiVersion/some/path"), ("get", "/:apiVersion/some/path")]
    ∧ ([("get", "/:apiVersion/some/path"),
        ("get", "/:apiVersion/some/path")] : List Binding).length ≠ 1 := by
  exact ⟨rfl, by decide⟩

/-- C4 amended: binding is eager but happens at handler-registration
time, not at verb-call time: every successful `handler_` call appends
exactly one binding to the routing table, keyed by the (method, path
after any version-path rewrite) pair of the route; additional version
handlers on the same route therefore each add one further binding. -/
theorem C4_amended (r : Route) (t : List Binding) (h : RouteHandler)
    (apiVersion : Option Nat) (isDefault : Bool) (r' : Route) (t' : List Binding)
    (hreg : r.handlerReg t h apiVersion isDefault = .ok (r', t')) :
    t' = t ++ [(r.method, r.registeredPath)] := by
  unfold Route.handlerReg at hreg
  split at hreg
  · exact Except.noConfusion hreg
  · rcases hd : r.regDefault h apiVersion isDefault with e | r1
    · rw [hd] at hreg
      exact Except.noConfusion hreg
    · rw [hd] at hreg
      rcases hv : r1.regVersion h apiVersion with e | r2
      · simp only [hv] at hreg
        exact Except.noConfusion hreg
      · simp only [hv] at hreg
        injection hreg with h1
        have hr1 := regDefault_fields r h apiVersion isDefault r1 hd
        have hr2 := regVersion_fields r1 h apiVersion r2 hv
        have hmeth : r2.method = r.method := hr2.1.trans hr1.1
        have hpath : r2.registeredPath = r.registeredPath :=
          (registeredPath_congr r2 r1 hr2.2.1 hr2.2.2).trans
            (registeredPath_congr r1 r hr1.2.1 hr1.2.2)
        have ht : t' = r2.execute t := by
          have h2 := congrArg Prod.snd h1
          simpa using h2.symm
        rw [ht]
        unfold Route.execute
        rw [hmeth, hpath]

/-- C4 amended, witnessed at the concrete C4 route: `handler(1, c4h1)`
on the freshly built route appends exactly the one binding with the
rewritten path. -/
theorem C4_amended_witness :
    c4route0.handlerReg [] c4h1 (some 1) false =
      .ok (c4r1, [("get", "/:apiVersion/some/path")])
    ∧ ([("get", "/:apiVersion/some/path")] : List Binding) =
        [] ++ [(c4route0.method, c4route0.registeredPath)] := by
  exact ⟨rfl, C4_amended c4route0 [] c4h1 (some 1) false c4r1 _ rfl⟩

/-- C5: the code selects the version-2 handler, not the version-10
handler, for the handler map with versions 2 and 10 and requested
version 11 with fallback-to-previous allowed: lodash `_.max` compares
the string keys lexicographically, and "2" is greater than "10" as a
string. -/
theorem C5_code_eval :
    (findHandler c5funcs (some 11) true true).map (·.id) = some 2
    ∧ (some 2 : Option Nat) ≠ some 10 := by
  exact ⟨by decide, by decide⟩

/-- C6 counterexample: after `public()` a further `auth(fn)` call still
registers a handler that runs at dispatch time: on the concrete route
built by `public()` then `auth` of a denying handler (id 5), dispatch
fails with an access-denied error and the executed auth checks are [5],
not empty. -/
theorem C6_counterexample :
    (Route.public c6base).auth (some c6after) = .ok c6final
    ∧ (c6final.dispatch req0 {}).outcome = .error .accessError
    ∧ (c6final.dispatch req0 {}).authInvoked = [5]
    ∧ ([5] : List Nat) ≠ [] := by
  exact ⟨rfl, rfl, rfl, by decide⟩

/-- C6 amended: on a public route the defaultAuthHandler is never
prepended and the missing-defaultAuthHandler configuration error cannot
occur — the effective auth list is exactly the `authHandlers` list — but
auth handlers present in that list (in particular ones registered via
`auth(fn)` after the `public()` call) are still executed in registration
order and may deny the request. -/
theorem C6_amended (r : Route) (req : Request) (res : Res)
    (hp : r.isPublic = true)
    (hmw : runMiddlewares r.expressMiddleware = .ok ()) :
    effectiveAuthHandlers r req = .ok r.authHandlers
    ∧ (r.dispatch req res).authInvoked = (runAuthChain req.path r.authHandlers).1 := by
  have heff : effectiveAuthHandlers r req = .ok r.authHandlers := by
    simp [effectiveAuthHandlers, hp]
  exact ⟨heff, dispatch_authInvoked r req res r.authHandlers heff hmw⟩

/-- C6 amended, witnessed at the concrete C6 route. -/
theorem C6_amended_witness :
    c6final.isPublic = true
    ∧ (c6final.dispatch req0 {}).authInvoked =
        (runAuthChain req0.path c6final.authHandlers).1 := by
  exact ⟨rfl, (C6_amended c6final req0 {} rfl rfl).2⟩

/-- C7: each auth check evaluated during dispatch is interpreted as:
true continues to the next check; false fails with an access-denied
error; a returned Error instance is propagated unchanged; any other
value fails with the invalid-return configuration error.  After any
failure the remaining checks do not run (the invoked list ends at the
failing check), and at dispatch level the error goes to `next` with the
route handler not invoked and the response untouched. -/
theorem C7 (path : String) (pre post : List AuthHandler) (h : AuthHandler)
    (r : Route) (req : Request) (res : Res)
    (hpre : (runAuthChain path pre).2 = .ok ()) :
    (h.ret = .val (.bool true) →
      runAuthChain path (pre ++ h :: post) =
        (pre.map (·.id) ++ h.id :: (runAuthChain path post).1,
          (runAuthChain path post).2))
    ∧ (h.ret = .val (.bool false) →
      runAuthChain path (pre ++ h :: post) =
        (pre.map (·.id) ++ [h.id], .error .accessError))
    ∧ (∀ e : JsError, h.ret = .errVal e →
      runAuthChain path (pre ++ h :: post) = (pre.map (·.id) ++ [h.id], .error e))
    ∧ (∀ v : JsVal, h.ret = .val v → isBoolean v = false →
      runAuthChain path (pre ++ h :: post) =
        (pre.map (·.id) ++ [h.id],
          .error (.err ("Invalid return value from auth handler. Requested path: " ++ path))))
    ∧ (∀ (es : List AuthHandler) (e : JsError),
      effectiveAuthHandlers r req = .ok es →
      runMiddlewares r.expressMiddleware = .ok () →
      (runAuthChain req.path es).2 = .error e →
      (r.dispatch req res).outcome = .error e
      ∧ (r.dispatch req res).handlerInvoked = none
      ∧ (r.dispatch req res).res = res) := by
  have hids : (runAuthChain path pre).1 = pre.map (·.id) :=
    runAuthChain_ids_ok path pre hpre
  have happ := runAuthChain_append_ok path pre (h :: post) hpre
  refine ⟨?_, ?_, ?_, ?_, ?_⟩
  · intro hret
    rw [happ, hids]
    simp [runAuthChain, evalAuthRet, hret, isBoolean]
  · intro hret
    rw [happ, hids]
    simp [runAuthChain, evalAuthRet, hret, isBoolean]
  · intro e hret
    rw [happ, hids]
    simp [runAuthChain, evalAuthRet, hret]
  · intro v hret hb
    rw [happ, hids]
    simp [runAuthChain, evalAuthRet, hret, hb]
  · intro es e heff hmw hfail
    exact dispatch_auth_error r req res es e heff hmw hfail

/-- C7, witnessed concretely: a passing check followed by a denying one
stops the chain with an access error after exactly the two invocations,
and on a concrete route the denial reaches `next` with no handler
invoked and the response untouched. -/
theorem C7_witness :
    (runAuthChain "/some/path" [⟨20, .val (.bool true)⟩]).2 = .ok ()
    ∧ runAuthChain "/some/path"
        ([⟨20, .val (.bool true)⟩] ++ ⟨21, .val (.bool false)⟩ :: [⟨22, .val (.bool true)⟩]) =
        ([20, 21], .error .accessError)
    ∧ (c7route.dispatch req0 {}).outcome = .error .accessError
    ∧ (c7route.dispatch req0 {}).handlerInvoked = none := by
  refine ⟨rfl, ?_, ?_, ?_⟩
  · exact (C7 "/some/path" [⟨20, .val (.bool true)⟩] [⟨22, .val (.bool true)⟩]
      ⟨21, .val (.bool false)⟩ c7route req0 {} rfl).2.1 rfl
  · exact ((C7 "/some/path" [⟨20, .val (.bool true)⟩] [⟨22, .val (.bool true)⟩]
      ⟨21, .val (.bool false)⟩ c7route req0 {} rfl).2.2.2.2
        c7route.authHandlers JsError.accessError rfl rfl rfl).1
  · exact ((C7 "/some/path" [⟨20, .val (.bool true)⟩] [⟨22, .val (.bool true)⟩]
      ⟨21, .val (.bool false)⟩ c7route req0 {} rfl).2.2.2.2
        c7route.authHandlers JsError.accessError rfl rfl rfl).2.1

/-- C8: materialization of a non-custom-response handler result: a
buffer is sent unmodified; any other object is sent as a JSON string
with the Content-Type header set to application/json, pretty-printed
with a 2-space indent in the development and testing profiles and
compact otherwise; a string is sent verbatim with the content type left
untouched; a result that is neither an object nor a string — notably
null — raises a NotFound error with nothing sent. -/
theorem C8 (req : Request) (res : Res) (o : List (String × JsVal)) (d s : String)
    (v : JsVal) :
    resultStep req res (.value (.buffer d)) = (res.send (.buffer d), .ok ())
    ∧ ((req.profile = some "development" ∨ req.profile = some "testing") →
        resultStep req res (.value (.obj o)) =
          ((res.set "Content-Type" "application/json").send
            (.str ((jsonStringifyPretty 0 (.obj o)).getD "undefined")), .ok ()))
    ∧ (req.profile ≠ some "development" → req.profile ≠ some "testing" →
        resultStep req res (.value (.obj o)) =
          ((res.set "Content-Type" "application/json").send
            (.str ((jsonStringifyCompact (.obj o)).getD "undefined")), .ok ()))
    ∧ resultStep req res (.value (.str s)) = (res.send (.str s), .ok ())
    ∧ (res.send (.str s)).contentType = res.contentType
    ∧ (isObject v = false → isString v = false →
        resultStep req res (.value v) = (res, .error (.notFoundError none)))
    ∧ resultStep req res (.value .null) = (res, .error (.notFoundError none)) := by
  refine ⟨rfl, ?_, ?_, rfl, rfl, ?_, rfl⟩
  · intro hdev
    simp only [resultStep, sendResult, isObject, isString, isBuffer, Bool.not_true,
      Bool.not_false, Bool.false_and, Bool.and_false, if_pos hdev]
    rfl
  · intro hnd hnt
    have hno : ¬(req.profile = some "development" ∨ req.profile = some "testing") :=
      not_or.mpr ⟨hnd, hnt⟩
    simp only [resultStep, sendResult, isObject, isString, isBuffer, Bool.not_true,
      Bool.not_false, Bool.false_and, Bool.and_false, if_neg hno]
    rfl
  · intro ho hs
    simp [resultStep, ho, hs]

/-- C8, witnessed at concrete inputs: an object result in the
development profile is sent pretty-printed with the JSON content type,
and the same object in an unconfigured profile is sent compact. -/
theorem C8_witness :
    (reqDev.profile = some "development" ∨ reqDev.profile = some "testing")
    ∧ resultStep reqDev {} (.value (.obj [("some", .str "data")])) =
        ((Res.set {} "Content-Type" "application/json").send
          (.str "\x7b\n  \"some\": \"data\"\n\x7d"), .ok ())
    ∧ req0.profile ≠ some "development"
    ∧ resultStep req0 {} (.value (.obj [("some", .str "data")])) =
        ((Res.set {} "Content-Type" "application/json").send
          (.str "\x7b\"some\":\"data\"\x7d"), .ok ()) := by
  refine ⟨Or.inl rfl, ?_, by decide, ?_⟩
  · exact (C8 reqDev {} [("some", .str "data")] "" "" .null).2.1 (Or.inl rfl)
  · exact (C8 req0 {} [("some", .str "data")] "" "" .null).2.2.1
      (by decide) (by decide)

/-- C9: on a dispatch of a route with versioning enabled whose
`findApiVersionHandler` returns undefined for the request: with
`fallbackToDefaultHandler` unset or true the "default" handler is
invoked; with it false, the dispatch fails with the NotFound error
"Api version must be defined" and no handler is invoked. -/
theorem C9 (r : Route) (req : Request) (res : Res) (cfg : ApiVersioningConfig)
    (h : RouteHandler) (es : List AuthHandler)
    (hcfg : r.apiVersioningConfig = some cfg)
    (hen : cfg.enabled = true)
    (hfind : cfg.findApiVersionHandler req = none)
    (heff : effectiveAuthHandlers r req = .ok es)
    (hauth : (runAuthChain req.path es).2 = .ok ())
    (hmw : runMiddlewares r.expressMiddleware = .ok ())
    (hdef : lookupKey r.handlerFuncs "default" = some h) :
    ((cfg.fallbackToDefaultHandler = none ∨ cfg.fallbackToDefaultHandler = some true) →
      (r.dispatch req res).handlerInvoked = some h.id)
    ∧ (cfg.fallbackToDefaultHandler = some false →
      (r.dispatch req res).outcome =
        .error (.notFoundError (some "Api version must be defined"))
      ∧ (r.dispatch req res).handlerInvoked = none) := by
  have henab : r.isApiVersioningEnabled = true := by
    simp [Route.isApiVersioningEnabled, hcfg, hen]
  constructor
  · intro hfb
    have hfbd : cfg.fallbackToDefaultHandler.getD true = true := by
      rcases hfb with h1 | h1 <;> simp [h1]
    have hres : r.resolveApiVersion req = .ok none := by
      simp [Route.resolveApiVersion, henab, hcfg, findApiVersionFromRequest, hfind, hfbd]
    have hfbR : r.fbDefault = true := by
      simp [Route.fbDefault, hcfg, hfbd]
    have hfh : findHandler r.handlerFuncs none r.fbDefault r.fbPrevious = some h := by
      simp [findHandler, hfbR, hdef]
    unfold Route.dispatch Route.handle
    rw [heff, hmw]
    rcases hac : (runAuthChain req.path es).2 with e | u
    · rw [hauth] at hac
      exact absurd hac (by simp)
    · rcases hr : h.ret with v | e2
      · by_cases ho : r.omitResultHandlers <;> simp [hac, hres, hfh, hr, ho]
      · simp [hac, hres, hfh, hr]
  · intro hfb
    have hres : r.resolveApiVersion req =
        .error (.notFoundError (some "Api version must be defined")) := by
      simp [Route.resolveApiVersion, henab, hcfg, findApiVersionFromRequest, hfind, hfb]
    unfold Route.dispatch Route.handle
    rw [heff, hmw]
    rcases hac : (runAuthChain req.path es).2 with e | u
    · rw [hauth] at hac
      exact absurd hac (by simp)
    · simp [hac, hres]

/-- C9, witnessed at the concrete C9 routes: with the flag unset the
default handler (id 9) is invoked, with the flag false the dispatch
fails with "Api version must be defined". -/
theorem C9_witness :
    (c9route none).apiVersioningConfig = some (c9cfg none)
    ∧ ((c9route none).dispatch req0 {}).handlerInvoked = some 9
    ∧ ((c9route (some false)).dispatch req0 {}).outcome =
        .error (.notFoundError (some "Api version must be defined")) := by
  refine ⟨rfl, ?_, ?_⟩
  · exact (C9 (c9route none) req0 {} (c9cfg none) c9h []
      rfl rfl rfl rfl rfl rfl rfl).1 (Or.inl rfl)
  · exact ((C9 (c9route (some false)) req0 {} (c9cfg (some false)) c9h []
      rfl rfl rfl rfl rfl rfl rfl).2 rfl).1

/-- C10: dispatching never mutates the Route configuration: the
state-passing dispatch returns the Route unchanged (handle_ only reads
`this`; the defaultAuthHandler unshift operates on the
`authHandlers.slice()` copy), so after any sequence of dispatches the
Route — in particular its authHandlers, expressMiddleware, handlerFuncs,
defaultAuthHandler and the public and custom-response flags — is what it
was, and every later request observes the same configuration and
outcome. -/
theorem C10 (r : Route) (req : Request) (res : Res) (l : List (Request × Res)) :
    (r.dispatchSt req res).1 = r
    ∧ dispatchSeqState r l = r
    ∧ ((r.dispatchSt req res).1.authHandlers = r.authHandlers
        ∧ (r.dispatchSt req res).1.expressMiddleware = r.expressMiddleware
        ∧ (r.dispatchSt req res).1.handlerFuncs = r.handlerFuncs
        ∧ (r.dispatchSt req res).1.defaultAuthHandler = r.defaultAuthHandler
        ∧ (r.dispatchSt req res).1.isPublic = r.isPublic
        ∧ (r.dispatchSt req res).1.omitResultHandlers = r.omitResultHandlers)
    ∧ (dispatchSeqState r l).dispatch req res = r.dispatch req res := by
  have hseq : dispatchSeqState r l = r := by
    induction l with
    | nil => rfl
    | cons p t ih =>
      rcases p with ⟨q, s⟩
      exact ih
  exact ⟨rfl, hseq, ⟨rfl, rfl, rfl, rfl, rfl, rfl⟩, by rw [hseq]⟩
